import Mathlib

/-!
Verification of the WeChat annual-report pipeline (`wechat-annual.py`).

The source is shallowly embedded: Python `bytes` values are `List Nat`
(each element a byte value), Python `str` values are represented by their
UTF-8 byte encoding (`List Nat`) or, where only character content matters,
by `List Char`; fallible Python code is modelled with `Except`/`Option`,
and raised exceptions become `Except.error` values.
-/

namespace WxAnnual

/-- Exceptions raised by the embedded Python code. -/
inductive PyErr where
  | indexError
  | unicodeDecodeError
  | typeError
  | zeroDivisionError
  | sysExit
  deriving DecidableEq, Repr

/-- UTF-8 validation scanner.  The first argument is the stack of
inclusive ranges the next continuation bytes must fall in (empty at a
character boundary); at a boundary a lead byte pushes the ranges of its
continuation bytes, per the strict UTF-8 rules Python's `bytes.decode()`
enforces (no overlong forms, no surrogates, nothing above `U+10FFFF`). -/
def utf8Go : List (Nat × Nat) → List Nat → Bool
  | [], [] => true
  | [], b :: rest =>
      if b ≤ 0x7F then utf8Go [] rest
      else if 0xC2 ≤ b && b ≤ 0xDF then utf8Go [(0x80, 0xBF)] rest
      else if b = 0xE0 then utf8Go [(0xA0, 0xBF), (0x80, 0xBF)] rest
      else if (0xE1 ≤ b && b ≤ 0xEC) || b = 0xEE || b = 0xEF then
        utf8Go [(0x80, 0xBF), (0x80, 0xBF)] rest
      else if b = 0xED then utf8Go [(0x80, 0x9F), (0x80, 0xBF)] rest
      else if b = 0xF0 then utf8Go [(0x90, 0xBF), (0x80, 0xBF), (0x80, 0xBF)] rest
      else if 0xF1 ≤ b && b ≤ 0xF3 then
        utf8Go [(0x80, 0xBF), (0x80, 0xBF), (0x80, 0xBF)] rest
      else if b = 0xF4 then utf8Go [(0x80, 0x8F), (0x80, 0xBF), (0x80, 0xBF)] rest
      else false
  | _ :: _, [] => false
  | r :: rs, b :: rest => if r.1 ≤ b && b ≤ r.2 then utf8Go rs rest else false

/-- UTF-8 validity of a byte sequence, as checked by Python's strict
`bytes.decode()`. -/
def utf8Valid (l : List Nat) : Bool := utf8Go [] l

/-- Model of Python `bytes.decode()` with strings represented by their
UTF-8 bytes: succeeds (returning the same bytes) exactly when the bytes
are valid UTF-8, otherwise the caller sees `UnicodeDecodeError`. -/
def pyDecode (bs : List Nat) : Option (List Nat) :=
  if utf8Valid bs then some bs else none

/-- Every list of ASCII bytes is valid UTF-8. -/
theorem utf8Valid_of_ascii : ∀ l : List Nat, (∀ b ∈ l, b < 128) → utf8Valid l = true := by
  intro l
  induction l with
  | nil => intro _; rfl
  | cons b rest ih =>
    intro h
    have hb : b ≤ 0x7F := by
      have := h b (by simp)
      omega
    show utf8Go [] (b :: rest) = true
    rw [utf8Go, if_pos hb]
    exact ih (fun x hx => h x (by simp [hx]))

/-- Python dict assignment `d[k] = v`: replaces the value in place when the
key is already present, otherwise appends the new binding. -/
def dictInsert (d : List (Nat × List Nat)) (k : Nat) (v : List Nat) :
    List (Nat × List Nat) :=
  if d.any (fun p => p.1 = k) then
    d.map (fun p => if p.1 = k then (k, v) else p)
  else d ++ [(k, v)]

/-- The cursor loop of `parse_remark` (source lines 155–164), acting on
the not-yet-consumed suffix of the blob:

```
while csor < len(blob):
    dtype = blob[csor]; csor += 1
    step = blob[csor]; csor += 1          # IndexError if blob ends here
    data[dtype] = blob[csor:csor+step].decode()   # slice truncates silently
    csor += step
```

A single trailing byte raises `IndexError` (the length-byte read); the
value slice `blob[csor:csor+step]` silently truncates at the end of the
blob, exactly as Python slicing does; `.decode()` may raise
`UnicodeDecodeError`. -/
def parseRemarkGo (acc : List (Nat × List Nat)) :
    List Nat → Except PyErr (List (Nat × List Nat))
  | [] => .ok acc
  | [_] => .error .indexError
  | dtype :: step :: rest =>
    match pyDecode (rest.take step) with
    | none => .error .unicodeDecodeError
    | some v => parseRemarkGo (dictInsert acc dtype v) (rest.drop step)
termination_by l => l.length
decreasing_by simp [List.length]; omega

/-- `parse_remark` from the source: decode a contact-remark blob as
tag/length/value records into a tag-to-value dict.  (The subsequent
`pd.Series(...).rename(remark_fields)` presentation step renames known
tags and does not affect decoding.) -/
def parse_remark (blob : List Nat) : Except PyErr (List (Nat × List Nat)) :=
  parseRemarkGo [] blob

/-- Tag-length-value encoding of a sequence of (tag, value) pairs: one tag
byte, one length byte, then the value bytes, per pair (spec §4.2). -/
def tlvEncode (pairs : List (Nat × List Nat)) : List Nat :=
  pairs.foldr (fun p acc => p.1 :: p.2.length :: p.2 ++ acc) []

/-- Decoding an encoded pair sequence threads the accumulator exactly like
a fold of Python dict assignments. -/
theorem parseRemarkGo_tlvEncode (pairs : List (Nat × List Nat)) :
    ∀ acc, (∀ p ∈ pairs, utf8Valid p.2 = true) →
    parseRemarkGo acc (tlvEncode pairs) =
      .ok (pairs.foldl (fun d p => dictInsert d p.1 p.2) acc) := by
  induction pairs with
  | nil =>
    intro acc _
    simp [tlvEncode, parseRemarkGo, List.foldl]
  | cons p rest ih =>
    intro acc h
    have hv : utf8Valid p.2 = true := h p (by simp)
    have henc : tlvEncode (p :: rest) = p.1 :: p.2.length :: (p.2 ++ tlvEncode rest) := by
      simp [tlvEncode]
    rw [henc, parseRemarkGo]
    rw [List.take_left, List.drop_left]
    rw [pyDecode, hv]
    simp only [if_true]
    rw [ih (dictInsert acc p.1 p.2) (fun q hq => h q (by simp [hq]))]
    simp [List.foldl]

/-- Claim C1 (counterexample): on the blob `[10, 5, 65]` the declared
length `5` reads past the end of the blob, yet `parse_remark` does not
fail with any `MalformedRecord`-style error and does not return an empty
mapping — Python's slice silently truncates the value to the one
remaining byte and decoding succeeds with `{10: "A"}`. -/
theorem C1_counterexample :
    parse_remark [10, 5, 65] = .ok [(10, [65])] := by
  simp [parse_remark, parseRemarkGo, pyDecode, utf8Valid, utf8Go, dictInsert]

/-- Claim C1 (amended): the TLV decoder is lenient, not strict, about
length consistency.  A declared length that would read past the end of
the blob silently truncates the value to the bytes that remain and
decoding succeeds with that truncated value; the only failure on a
truncated encoding is when the blob ends immediately after a tag byte, in
which case the length-byte read raises `IndexError` (an exception, not an
empty mapping). -/
theorem C1_tlv_lenient (t step : Nat) (rest : List Nat)
    (hlen : rest.length < step) (hv : utf8Valid rest = true) :
    parse_remark (t :: step :: rest) = .ok [(t, rest)] ∧
    parse_remark [t] = .error .indexError := by
  constructor
  · rw [parse_remark, parseRemarkGo]
    rw [List.take_of_length_le (by omega), List.drop_eq_nil_of_le (by omega)]
    rw [pyDecode, hv]
    simp only [if_true]
    simp [parseRemarkGo, dictInsert]
  · simp [parse_remark, parseRemarkGo]

/-- Claim C1 (witness): the amended statement at the concrete blob
`[10, 5, 65]` and trailing-tag blob `[10]`. -/
theorem C1_witness :
    parse_remark [10, 5, 65] = .ok [(10, [65])] ∧
    parse_remark [10] = .error .indexError := by
  have h := C1_tlv_lenient 10 5 [65] (by decide) (by decide)
  exact ⟨h.1, h.2⟩

/-- Claim C6: round trip.  For any sequence of (tag, value) pairs whose
tags fit in a tag byte, whose values are at most 255 bytes long and are
valid UTF-8 (Python `str` values are represented by their UTF-8 bytes),
encoding the sequence in tag-length-value form and decoding with
`parse_remark` yields exactly the Python dict built from the pairs in
order (later pairs overwrite earlier ones with the same tag, as in any
mapping built from the sequence). -/
theorem C6_tlv_roundtrip (pairs : List (Nat × List Nat))
    (h : ∀ p ∈ pairs, p.1 < 256 ∧ p.2.length ≤ 255 ∧ utf8Valid p.2 = true) :
    parse_remark (tlvEncode pairs) =
      .ok (pairs.foldl (fun d p => dictInsert d p.1 p.2) []) :=
  parseRemarkGo_tlvEncode pairs [] (fun p hp => (h p hp).2.2)

/-- Claim C6 (witness): round trip at a concrete pair sequence. -/
theorem C6_witness :
    (∀ p ∈ [((10 : Nat), [104, 105]), (18, [119])],
      p.1 < 256 ∧ p.2.length ≤ 255 ∧ utf8Valid p.2 = true) ∧
    parse_remark (tlvEncode [(10, [104, 105]), (18, [119])]) =
      .ok ([(10, [104, 105]), (18, [119])].foldl
        (fun d p => dictInsert d p.1 p.2) []) :=
  ⟨by decide, C6_tlv_roundtrip [(10, [104, 105]), (18, [119])] (by decide)⟩

/-! ## Blob field scanners (`parse_blob` and its four regex partials)

Source lines 27–33 and 166–169.  Each Python regex is embedded as an
executable byte scanner that follows the `re` engine's semantics on the
specific pattern: match start positions are tried left to right, lazy
(`*?`) repetitions prefer the shortest expansion whose continuation
succeeds, greedy repetitions the longest, and `.` matches any byte except
the newline byte `10`. -/

/-- ASCII bytes of a string literal (used only for ASCII patterns). -/
def litB (s : String) : List Nat := s.toList.map (fun c => c.toNat)

/-- Does `pat` occur in `blob` starting at offset `i`? -/
def isPrefixAt (pat blob : List Nat) (i : Nat) : Bool := pat.isPrefixOf (blob.drop i)

/-- Byte class of the regex `.`: any byte except newline. -/
def dotB (b : Nat) : Bool := b ≠ 10

/-- `a` consecutive `.`-bytes are available at offset `p`. -/
def dotRun (blob : List Nat) (p a : Nat) : Bool :=
  p + a ≤ blob.length && ((blob.drop p).take a).all dotB

/-- First success of `f` on `0, 1, …, n` (lazy-quantifier search order). -/
def firstSome {α : Type} (n : Nat) (f : Nat → Option α) : Option α :=
  (List.range (n + 1)).findSome? f

/-- First success of `f` on `n, n-1, …, 0` (greedy-quantifier order). -/
def lastSome {α : Type} (n : Nat) (f : Nat → Option α) : Option α :=
  ((List.range (n + 1)).reverse).findSome? f

/-- Byte class `[0-9A-Za-z_\-]` of the founder-identifier group. -/
def idByte (b : Nat) : Bool :=
  (48 ≤ b && b ≤ 57) || (65 ≤ b && b ≤ 90) || (97 ≤ b && b ≤ 122) || b = 95 || b = 45

/-- One attempt of the founder regex `\x12.([0-9A-Za-z_\-]{6,20})` at
offset `i`: marker byte `0x12`, one `.`-byte, then the greedy group of 6
to 20 identifier bytes. -/
def founderFrom (blob : List Nat) (i : Nat) : Option (List Nat) :=
  if blob[i]? = some 18 then
    match blob[i + 1]? with
    | some c =>
      if dotB c then
        if 6 ≤ (((blob.drop (i + 2)).takeWhile idByte).take 20).length then
          some (((blob.drop (i + 2)).takeWhile idByte).take 20)
        else none
      else none
    | none => none
  else none

/-- First (leftmost) founder-group match in the blob. -/
def founderMatch (blob : List Nat) : Option (List Nat) :=
  firstSome blob.length (founderFrom blob)

/-- One attempt of the gender regex `\x08([\x00-\x02])` at offset `i`. -/
def profileFrom (blob : List Nat) (i : Nat) : Option (List Nat) :=
  if blob[i]? = some 8 then
    match blob[i + 1]? with
    | some c => if c ≤ 2 then some [c] else none
    | none => none
  else none

/-- First (leftmost) gender-flag match in the blob. -/
def profileMatch (blob : List Nat) : Option (List Nat) :=
  firstSome blob.length (profileFrom blob)

/-- One attempt of the chatroom regex `<RoomData>.*</RoomData>` at offset
`i`: the literal opening tag, a greedy (longest-first) `.*` run, then the
literal closing tag; returns the full matched byte span. -/
def chatroomFrom (blob : List Nat) (i : Nat) : Option (List Nat) :=
  if isPrefixAt (litB ("<RoomData>")) blob i then
    lastSome blob.length (fun a =>
      if dotRun blob (i + 10) a && isPrefixAt (litB ("</RoomData>")) blob (i + 10 + a) then
        some ((blob.drop i).take (21 + a))
      else none)
  else none

/-- First (leftmost) chatroom-block match in the blob. -/
def chatroomMatch (blob : List Nat) : Option (List Nat) :=
  firstSome blob.length (chatroomFrom blob)

/-- Digit-byte class `\d` (bytes regex: ASCII digits). -/
def isDigitB (b : Nat) : Bool := 48 ≤ b && b ≤ 57

/-- Length of the maximal digit run at offset `p`. -/
def digitRunLen (blob : List Nat) (p : Nat) : Nat :=
  ((blob.drop p).takeWhile isDigitB).length

/-- Suffix `.*?/\d+` of the avatar regex from offset `p`: lazy `.`-run,
a slash, then a maximal nonempty digit run; returns the end offset. -/
def avatarTail (blob : List Nat) (p : Nat) : Option Nat :=
  firstSome blob.length (fun d =>
    if dotRun blob p d && blob[p + d]? = some 47 then
      let m := digitRunLen blob (p + d + 1)
      if 0 < m then some (p + d + 1 + m) else none
    else none)

/-- Suffix `(?:.*?/)?.*?/\d+` of the avatar regex from offset `p`: the
greedy `?` tries the optional path segment first. -/
def avatarOpt (blob : List Nat) (p : Nat) : Option Nat :=
  (firstSome blob.length (fun c =>
    if dotRun blob p c && blob[p + c]? = some 47 then avatarTail blob (p + c + 1)
    else none)) <|> avatarTail blob p

/-- Suffix `.*?/.*?/(?:.*?/)?.*?/\d+` of the avatar regex from offset
`p`: two mandatory lazy path segments, then `avatarOpt`. -/
def avatarBody (blob : List Nat) (p : Nat) : Option Nat :=
  firstSome blob.length (fun a =>
    if dotRun blob p a && blob[p + a]? = some 47 then
      firstSome blob.length (fun b =>
        if dotRun blob (p + a + 1) b && blob[p + a + 1 + b]? = some 47 then
          avatarOpt blob (p + a + 1 + b + 1)
        else none)
    else none)

/-- One attempt of the avatar regex `https?://.*?/.*?/(?:.*?/)?.*?/\d+`
at offset `i` (the greedy `s?` prefers the `https` branch); returns the
full matched byte span. -/
def avatarFrom (blob : List Nat) (i : Nat) : Option (List Nat) :=
  if isPrefixAt (litB ("http")) blob i then
    let withS : Option Nat :=
      if isPrefixAt (litB ("s://")) blob (i + 4) then avatarBody blob (i + 8) else none
    let noS : Option Nat :=
      if isPrefixAt (litB ("://")) blob (i + 4) then avatarBody blob (i + 7) else none
    match withS <|> noS with
    | some e => some ((blob.drop i).take (e - i))
    | none => none
  else none

/-- First (leftmost) avatar-URL match in the blob. -/
def avatarMatch (blob : List Nat) : Option (List Nat) :=
  firstSome blob.length (avatarFrom blob)

/-- `parse_blob` from the source (lines 27–33): find all matches of the
regex, return `None` when there are none, else `.decode()` the first
match — which raises `UnicodeDecodeError` when the matched bytes are not
valid UTF-8. -/
def parse_blob (matcher : List Nat → Option (List Nat)) (blob : List Nat) :
    Except PyErr (Option (List Nat)) :=
  match matcher blob with
  | none => .ok none
  | some bs =>
    match pyDecode bs with
    | some s => .ok (some s)
    | none => .error .unicodeDecodeError

/-- `parse_headimg = partial(parse_blob, regex=b"https?://...")`. -/
def parse_headimg (blob : List Nat) : Except PyErr (Option (List Nat)) :=
  parse_blob avatarMatch blob

/-- `parse_founder = partial(parse_blob, regex=b"\x12.([0-9A-Za-z_\-]{6,20})")`. -/
def parse_founder (blob : List Nat) : Except PyErr (Option (List Nat)) :=
  parse_blob founderMatch blob

/-- `parse_chatroom = partial(parse_blob, regex=b"<RoomData>.*</RoomData>")`. -/
def parse_chatroom (blob : List Nat) : Except PyErr (Option (List Nat)) :=
  parse_blob chatroomMatch blob

/-- `parse_profile = partial(parse_blob, regex=b"\x08([\x00-\x02])")`. -/
def parse_profile (blob : List Nat) : Except PyErr (Option (List Nat)) :=
  parse_blob profileMatch blob

/-- Any byte of a founder-identifier match is in the ASCII identifier
class. -/
theorem founderMatch_ascii (blob : List Nat) (g : List Nat)
    (h : founderMatch blob = some g) : ∀ b ∈ g, b < 128 := by
  obtain ⟨i, _, hi⟩ := List.exists_of_findSome?_eq_some h
  unfold founderFrom at hi
  split at hi
  · revert hi
    split
    · split
      · split
        · intro hg b hb
          cases hg
          have h1 : b ∈ (blob.drop (i + 2)).takeWhile idByte :=
            List.mem_of_mem_take hb
          have h2 : idByte b = true := List.mem_takeWhile_imp h1
          simp [idByte] at h2
          omega
        · intro hg; cases hg
      · intro hg; cases hg
    · intro hg; cases hg
  · cases hi

/-- Claim C4 (counterexample): neither the avatar-URL extractor nor the
chatroom extractor is total.  On the blob `http://a/b/` ++ `[0xFF]` ++
`/1` the avatar pattern matches the whole blob (the lazy segments take
`a`, `b` and the optional group is skipped), and on `<RoomData>` ++
`[0xFF]` ++ `</RoomData>` the chatroom pattern matches the whole blob;
in both cases `.decode()` of the matched bytes raises
`UnicodeDecodeError` — the extractor raises instead of returning
`None`. -/
theorem C4_counterexample :
    parse_headimg (litB ("http://a/b/") ++ [255] ++ litB ("/1")) =
      .error .unicodeDecodeError ∧
    parse_chatroom (litB ("<RoomData>") ++ [255] ++ litB ("</RoomData>")) =
      .error .unicodeDecodeError := by
  exact ⟨rfl, rfl⟩

/-- Claim C4 (amended): each extractor returns `None` when its pattern
does not match, and the founder and gender extractors are total (their
capture groups are ASCII-only); but the avatar-URL and chatroom
extractors are not total — whenever the pattern does match and the
matched bytes are not valid UTF-8, they raise `UnicodeDecodeError` (see
the counterexample) instead of returning `None`. -/
theorem C4_extractors_partial_totality (blob : List Nat) :
    (∃ r, parse_founder blob = .ok r) ∧
    (∃ r, parse_profile blob = .ok r) ∧
    (avatarMatch blob = none → parse_headimg blob = .ok none) ∧
    (chatroomMatch blob = none → parse_chatroom blob = .ok none) ∧
    (∀ bs, avatarMatch blob = some bs → utf8Valid bs = false →
      parse_headimg blob = .error .unicodeDecodeError) ∧
    (∀ bs, chatroomMatch blob = some bs → utf8Valid bs = false →
      parse_chatroom blob = .error .unicodeDecodeError) := by
  refine ⟨?_, ?_, ?_, ?_, ?_, ?_⟩
  · unfold parse_founder parse_blob
    cases hm : founderMatch blob with
    | none => exact ⟨none, rfl⟩
    | some g =>
      have hval : utf8Valid g = true :=
        utf8Valid_of_ascii g (founderMatch_ascii blob g hm)
      exact ⟨some g, by simp [pyDecode, hval]⟩
  · unfold parse_profile parse_blob
    cases hm : profileMatch blob with
    | none => exact ⟨none, rfl⟩
    | some g =>
      obtain ⟨i, _, hi⟩ := List.exists_of_findSome?_eq_some hm
      unfold profileFrom at hi
      have hg : ∀ b ∈ g, b < 128 := by
        revert hi
        split
        · split
          · split
            · intro hg b hb
              cases hg
              simp at hb
              omega
            · intro hg; cases hg
          · intro hg; cases hg
        · intro hg; cases hg
      have hval : utf8Valid g = true := utf8Valid_of_ascii g hg
      exact ⟨some g, by simp [pyDecode, hval]⟩
  · intro hm
    unfold parse_headimg parse_blob
    rw [hm]
  · intro hm
    unfold parse_chatroom parse_blob
    rw [hm]
  · intro bs hm hv
    unfold parse_headimg parse_blob
    rw [hm]
    simp [pyDecode, hv]
  · intro bs hm hv
    unfold parse_chatroom parse_blob
    rw [hm]
    simp [pyDecode, hv]

/-- Claim C4 (witness): the amended statement at the empty blob, where no
pattern matches, and at two blobs on which the avatar (resp. chatroom)
pattern matches bytes containing the invalid byte `0xFF`. -/
theorem C4_witness :
    (∃ r, parse_founder [] = .ok r) ∧
    (∃ r, parse_profile [] = .ok r) ∧
    parse_headimg [] = .ok none ∧
    parse_chatroom [] = .ok none ∧
    parse_headimg (litB ("http://a/b/") ++ [255] ++ litB ("/1")) =
      .error .unicodeDecodeError ∧
    parse_chatroom (litB ("<RoomData>") ++ [255] ++ litB ("</RoomData>")) =
      .error .unicodeDecodeError := by
  obtain ⟨h1, h2, h3, h4, _, _⟩ := C4_extractors_partial_totality []
  refine ⟨h1, h2, h3 (by rfl), h4 (by rfl), ?_, ?_⟩
  · exact (C4_extractors_partial_totality
      (litB ("http://a/b/") ++ [255] ++ litB ("/1"))).2.2.2.2.1
      (litB ("http://a/b/") ++ [255] ++ litB ("/1")) (by rfl) (by rfl)
  · exact (C4_extractors_partial_totality
      (litB ("<RoomData>") ++ [255] ++ litB ("</RoomData>"))).2.2.2.2.2
      (litB ("<RoomData>") ++ [255] ++ litB ("</RoomData>")) (by rfl) (by rfl)

/-! ## ContactRepository (`prepare_contact`, source lines 128–191)

Rows of the `Friend` table as selected by the two SQL queries, and the
decoding pipeline applied to their blob columns.  The `username_to_md5`
hash only names message tables, so it is passed as a parameter.  In the
source each pipeline is wrapped in one `try`/`except` around the *whole
table*: `friends["dbContactRemark"].apply(parse_remark)` raises out of
the `apply` on the first failing row, the `except` logs a warning, and
the `else` branch that would set `self.friends` is skipped — so the
decoded table is absent (`none`), not missing one row. -/

/-- A raw friend row (`userName, type, dbContactRemark,
dbContactHeadImage, dbContactProfile`). -/
structure FriendRow where
  userName : List Char
  type : Int
  dbContactRemark : List Nat
  dbContactHeadImage : List Nat
  dbContactProfile : List Nat

/-- A decoded friend row after the joins/maps and the drop of the
`dbContact*` columns. -/
structure FriendDecoded where
  userName : List Char
  type : Int
  remark : List (Nat × List Nat)
  headimg : Option (List Nat)
  gender : Option (List Nat)
  table : List Char

/-- Decode the blob columns of one friend row; the first raising Python
call aborts (`Series.apply`/`Series.map` propagate the exception). -/
def decodeFriendRow (md5 : List Char → List Char) (r : FriendRow) :
    Except PyErr FriendDecoded :=
  match parse_remark r.dbContactRemark with
  | .error e => .error e
  | .ok remark =>
    match parse_headimg r.dbContactHeadImage with
    | .error e => .error e
    | .ok headimg =>
      match parse_profile r.dbContactProfile with
      | .error e => .error e
      | .ok gender =>
        .ok ⟨r.userName, r.type, remark, headimg, gender,
             ("Chat_").toList ++ md5 r.userName⟩

/-- A raw group row (`userName, type, dbContactRemark,
dbContactChatRoom`). -/
structure GroupRow where
  userName : List Char
  type : Int
  dbContactRemark : List Nat
  dbContactChatRoom : List Nat

/-- A decoded group row. -/
structure GroupDecoded where
  userName : List Char
  type : Int
  remark : List (Nat × List Nat)
  founder : Option (List Nat)
  chatroom : Option (List Nat)
  table : List Char

/-- Decode the blob columns of one group row. -/
def decodeGroupRow (md5 : List Char → List Char) (r : GroupRow) :
    Except PyErr GroupDecoded :=
  match parse_remark r.dbContactRemark with
  | .error e => .error e
  | .ok remark =>
    match parse_founder r.dbContactChatRoom with
    | .error e => .error e
    | .ok founder =>
      match parse_chatroom r.dbContactChatRoom with
      | .error e => .error e
      | .ok chatroom =>
        .ok ⟨r.userName, r.type, remark, founder, chatroom,
             ("Chat_").toList ++ md5 r.userName⟩

/-- Apply a fallible decode to every row, stopping at the first raised
exception, as the column-wise pandas operations do. -/
def applyAll {α β : Type} (f : α → Except PyErr β) : List α → Except PyErr (List β)
  | [] => .ok []
  | a :: l =>
    match f a with
    | .error e => .error e
    | .ok b =>
      match applyAll f l with
      | .error e => .error e
      | .ok bs => .ok (b :: bs)

/-- The friends pipeline of `prepare_contact`: `none` models the
`except` branch where `self.friends` is never assigned. -/
def prepare_friends (md5 : List Char → List Char) (rows : List FriendRow) :
    Option (List FriendDecoded) :=
  (applyAll (decodeFriendRow md5) rows).toOption

/-- The groups pipeline of `prepare_contact`. -/
def prepare_groups (md5 : List Char → List Char) (rows : List GroupRow) :
    Option (List GroupDecoded) :=
  (applyAll (decodeGroupRow md5) rows).toOption

/-- If any row's decode raises, the whole `applyAll` raises. -/
theorem applyAll_error {α β : Type} (f : α → Except PyErr β) :
    ∀ l : List α, (∃ a ∈ l, ∃ e, f a = .error e) →
    ∃ e, applyAll f l = .error e := by
  intro l
  induction l with
  | nil => rintro ⟨a, ha, _⟩; cases ha
  | cons a l ih =>
    rintro ⟨a₀, ha₀, e₀, he₀⟩
    cases hfa : f a with
    | error e => exact ⟨e, by rw [applyAll, hfa]⟩
    | ok b =>
      have ha₀l : a₀ ∈ l := by
        rcases List.mem_cons.1 ha₀ with h | h
        · subst h; rw [hfa] at he₀; cases he₀
        · exact h
      obtain ⟨e, he⟩ := ih ⟨a₀, ha₀l, e₀, he₀⟩
      exact ⟨e, by rw [applyAll, hfa, he]⟩

/-- If every row's decode succeeds, `applyAll` succeeds and keeps every
row. -/
theorem applyAll_ok {α β : Type} (f : α → Except PyErr β) :
    ∀ l : List α, (∀ a ∈ l, ∃ b, f a = .ok b) →
    ∃ bs, applyAll f l = .ok bs ∧ bs.length = l.length := by
  intro l
  induction l with
  | nil => intro _; exact ⟨[], rfl, rfl⟩
  | cons a l ih =>
    intro h
    obtain ⟨b, hb⟩ := h a (by simp)
    obtain ⟨bs, hbs, hlen⟩ := ih (fun x hx => h x (by simp [hx]))
    exact ⟨b :: bs, by rw [applyAll, hb, hbs], by simp [hlen]⟩

/-- A friend row whose blobs all decode (remark `{10: "hi"}`). -/
def friendRowGood : FriendRow :=
  ⟨("alice").toList, 1, [10, 2, 104, 105], [], []⟩

/-- A friend row whose remark blob is a lone tag byte, so `parse_remark`
raises `IndexError` reading the length byte. -/
def friendRowBad : FriendRow :=
  ⟨("bob").toList, 1, [10], [], []⟩

/-- Claim C2 (counterexample): with one decodable contact and one contact
whose remark blob fails to decode, the whole friends table is lost —
`prepare_friends` yields `none` (the source's `self.friends` is never
assigned), so the failing contact does *not* keep its raw fields in a
resulting table, and neither does the healthy contact. -/
theorem C2_counterexample :
    (decodeFriendRow (fun s => s) friendRowGood).isOk = true ∧
    decodeFriendRow (fun s => s) friendRowBad = .error .indexError ∧
    prepare_friends (fun s => s) [friendRowGood, friendRowBad] = none := by
  have hremark : parse_remark [10, 2, 104, 105] = .ok [(10, [104, 105])] := by
    simp [parse_remark, parseRemarkGo, pyDecode, utf8Valid, utf8Go, dictInsert]
  have hbadremark : parse_remark [10] = .error .indexError := by
    simp [parse_remark, parseRemarkGo]
  have hav : avatarMatch [] = none := rfl
  have hpf : profileMatch [] = none := rfl
  have hgood : (decodeFriendRow (fun s => s) friendRowGood).isOk = true := by
    simp [decodeFriendRow, friendRowGood, hremark, parse_headimg, parse_profile,
      parse_blob, hav, hpf, Except.isOk, Except.toBool]
  have hbad : decodeFriendRow (fun s => s) friendRowBad = .error .indexError := by
    simp [decodeFriendRow, friendRowBad, hbadremark]
  refine ⟨hgood, hbad, ?_⟩
  obtain ⟨e, he⟩ := applyAll_error (decodeFriendRow (fun s => s))
    [friendRowGood, friendRowBad] ⟨friendRowBad, by simp, .indexError, hbad⟩
  simp [prepare_friends, he, Except.toOption]

/-- Claim C2 (amended): a single contact's blob-decode failure is caught
inside `prepare_contact` (no exception propagates — the result is an
`Option`, never a raised error), but the failure is table-level, not
row-local: if any friend (resp. group) row fails to decode, the whole
decoded friends (resp. groups) table is left unset; only when every row
decodes does the table exist, and then it keeps every contact. -/
theorem C2_table_level_failure (md5 : List Char → List Char)
    (rows : List FriendRow) (grows : List GroupRow) :
    ((∃ r ∈ rows, ∃ e, decodeFriendRow md5 r = .error e) →
      prepare_friends md5 rows = none) ∧
    ((∀ r ∈ rows, ∃ d, decodeFriendRow md5 r = .ok d) →
      ∃ t, prepare_friends md5 rows = some t ∧ t.length = rows.length) ∧
    ((∃ r ∈ grows, ∃ e, decodeGroupRow md5 r = .error e) →
      prepare_groups md5 grows = none) ∧
    ((∀ r ∈ grows, ∃ d, decodeGroupRow md5 r = .ok d) →
      ∃ t, prepare_groups md5 grows = some t ∧ t.length = grows.length) := by
  refine ⟨?_, ?_, ?_, ?_⟩
  · intro h
    obtain ⟨e, he⟩ := applyAll_error (decodeFriendRow md5) rows h
    simp [prepare_friends, he, Except.toOption]
  · intro h
    obtain ⟨bs, hbs, hlen⟩ := applyAll_ok (decodeFriendRow md5) rows h
    exact ⟨bs, by simp [prepare_friends, hbs, Except.toOption], hlen⟩
  · intro h
    obtain ⟨e, he⟩ := applyAll_error (decodeGroupRow md5) grows h
    simp [prepare_groups, he, Except.toOption]
  · intro h
    obtain ⟨bs, hbs, hlen⟩ := applyAll_ok (decodeGroupRow md5) grows h
    exact ⟨bs, by simp [prepare_groups, hbs, Except.toOption], hlen⟩

/-- Claim C2 (witness): the amended statement at a one-row failing
friends table and an empty groups table. -/
theorem C2_witness :
    prepare_friends (fun s => s) [friendRowBad] = none ∧
    ∃ t, prepare_groups (fun s => s) [] = some t ∧ t.length = 0 := by
  have hbadremark : parse_remark [10] = .error .indexError := by
    simp [parse_remark, parseRemarkGo]
  have hbad : decodeFriendRow (fun s => s) friendRowBad = .error .indexError := by
    simp [decodeFriendRow, friendRowBad, hbadremark]
  obtain ⟨h1, _, _, h4⟩ :=
    C2_table_level_failure (fun s => s) [friendRowBad] []
  exact ⟨h1 ⟨friendRowBad, by simp, .indexError, hbad⟩,
         h4 (by intro r hr; cases hr)⟩

/-! ## Session statistics (source lines 262–266 and 311–317)

`session_count = len(sessions)`;
`session_count_group = sessions["UsrName"].str.contains("@chatroom").sum()`;
`session_count_friend = sessions["UsrName"].isin(self.friends.index).sum()`;
`pct_friend = session_count_friend / session_count` and likewise for
groups — a plain Python true division with no zero guard, which raises
`ZeroDivisionError` when `session_count` is `0`. -/

/-- A row of `SessionAbstract` (only `UsrName` is consumed). -/
structure Session where
  usrName : List Char

/-- Substring containment, as `str.contains` with a literal pattern. -/
def containsSub (pat s : List Char) : Bool :=
  (List.range (s.length + 1)).any (fun i => pat.isPrefixOf (s.drop i))

/-- `len(sessions)`. -/
def session_count (sessions : List Session) : Nat := sessions.length

/-- Sessions whose `UsrName` contains `"@chatroom"`. -/
def session_count_group (sessions : List Session) : Nat :=
  (sessions.filter (fun s => containsSub (("@chatroom").toList) s.usrName)).length

/-- Sessions whose `UsrName` is a friend identifier. -/
def session_count_friend (sessions : List Session) (friendIds : List (List Char)) : Nat :=
  (sessions.filter (fun s => decide (s.usrName ∈ friendIds))).length

/-- Python `/` on two machine integers: `ZeroDivisionError` on a zero
denominator, otherwise the exact rational quotient. -/
def pyTrueDiv (a b : Nat) : Except PyErr ℚ :=
  if b = 0 then .error .zeroDivisionError else .ok ((a : ℚ) / (b : ℚ))

/-- `pct_friend` as computed at source line 314. -/
def pct_friend (sessions : List Session) (friendIds : List (List Char)) :
    Except PyErr ℚ :=
  pyTrueDiv (session_count_friend sessions friendIds) (session_count sessions)

/-- `pct_group` as computed at source line 316. -/
def pct_group (sessions : List Session) : Except PyErr ℚ :=
  pyTrueDiv (session_count_group sessions) (session_count sessions)

/-- Claim C3 (counterexample): with zero total sessions the percentage
computations raise `ZeroDivisionError` instead of reporting `0` — there
is no zero guard in the code. -/
theorem C3_counterexample :
    pct_friend [] [] = .error .zeroDivisionError ∧
    pct_group [] = .error .zeroDivisionError :=
  ⟨rfl, rfl⟩

/-- Claim C3 (amended): when the total session count is positive, each
fraction equals `count_X / count` and lies in `[0, 1]`; but a zero total
is *not* guarded — it raises `ZeroDivisionError` (see the
counterexample) rather than being reported as 0. -/
theorem C3_fractions (sessions : List Session) (friendIds : List (List Char))
    (h : 0 < session_count sessions) :
    pct_friend sessions friendIds =
      .ok ((session_count_friend sessions friendIds : ℚ) / (session_count sessions : ℚ)) ∧
    pct_group sessions =
      .ok ((session_count_group sessions : ℚ) / (session_count sessions : ℚ)) ∧
    0 ≤ ((session_count_friend sessions friendIds : ℚ) / (session_count sessions : ℚ)) ∧
    ((session_count_friend sessions friendIds : ℚ) / (session_count sessions : ℚ)) ≤ 1 ∧
    0 ≤ ((session_count_group sessions : ℚ) / (session_count sessions : ℚ)) ∧
    ((session_count_group sessions : ℚ) / (session_count sessions : ℚ)) ≤ 1 := by
  have hne : session_count sessions ≠ 0 := by omega
  have hb : (0 : ℚ) < (session_count sessions : ℚ) := by exact_mod_cast h
  have hf : session_count_friend sessions friendIds ≤ session_count sessions :=
    List.length_filter_le _ _
  have hg : session_count_group sessions ≤ session_count sessions :=
    List.length_filter_le _ _
  refine ⟨by simp [pct_friend, pyTrueDiv, hne], by simp [pct_group, pyTrueDiv, hne],
    ?_, ?_, ?_, ?_⟩
  · positivity
  · exact (div_le_one hb).mpr (by exact_mod_cast hf)
  · positivity
  · exact (div_le_one hb).mpr (by exact_mod_cast hg)

/-- Claim C3 (witness): the amended statement on two sessions, one
friend chat and one group chat. -/
theorem C3_witness :
    0 < session_count [⟨("wxid_a").toList⟩, ⟨("x@chatroom").toList⟩] ∧
    pct_friend [⟨("wxid_a").toList⟩, ⟨("x@chatroom").toList⟩] [("wxid_a").toList] =
      .ok ((session_count_friend [⟨("wxid_a").toList⟩, ⟨("x@chatroom").toList⟩]
             [("wxid_a").toList] : ℚ) /
           (session_count [⟨("wxid_a").toList⟩, ⟨("x@chatroom").toList⟩] : ℚ)) :=
  ⟨by decide,
   (C3_fractions [⟨("wxid_a").toList⟩, ⟨("x@chatroom").toList⟩]
     [("wxid_a").toList] (by decide)).1⟩

/-! ## Time window (source lines 82–85)

```
now = datetime.now()
self.year = now.year - 1 if now.month < 3 else now.year
self.st = datetime(self.year,1,1).timestamp()
self.et = datetime(self.year+1,1,1).timestamp()
```

The window endpoints are modelled by their structured datetime values
(the `timestamp()` conversion to epoch seconds is order- and
value-preserving on them). -/

/-- A Python `datetime` value (fields down to seconds). -/
structure PyDateTime where
  year : Int
  month : Nat
  day : Nat
  hour : Nat
  minute : Nat
  second : Nat
  deriving DecidableEq, Repr

/-- Midnight, January 1 of the given year. -/
def janFirst (y : Int) : PyDateTime := ⟨y, 1, 1, 0, 0, 0⟩

/-- The `[st, et)` window derived from the run instant. -/
def timeWindow (now : PyDateTime) : PyDateTime × PyDateTime :=
  (janFirst (if now.month < 3 then now.year - 1 else now.year),
   janFirst ((if now.month < 3 then now.year - 1 else now.year) + 1))

/-- Claim C5: for any run instant, the window is the previous calendar
year when the month is less than 3 and the current calendar year
otherwise; in particular February 15 2024 yields
`[2023-01-01T00:00:00, 2024-01-01T00:00:00)` and March 1 2024 yields
`[2024-01-01T00:00:00, 2025-01-01T00:00:00)`. -/
theorem C5_time_window (now : PyDateTime)
    (h1 : 1 ≤ now.month) (h2 : now.month ≤ 12) :
    (now.month < 3 →
      timeWindow now = (janFirst (now.year - 1), janFirst now.year)) ∧
    (3 ≤ now.month →
      timeWindow now = (janFirst now.year, janFirst (now.year + 1))) ∧
    timeWindow ⟨2024, 2, 15, 0, 0, 0⟩ = (janFirst 2023, janFirst 2024) ∧
    timeWindow ⟨2024, 3, 1, 0, 0, 0⟩ = (janFirst 2024, janFirst 2025) := by
  refine ⟨?_, ?_, by decide, by decide⟩
  · intro hm
    simp only [timeWindow, if_pos hm]
    rw [sub_add_cancel]
  · intro hm
    have hm3 : ¬ now.month < 3 := by omega
    simp only [timeWindow, if_neg hm3]

/-- Claim C5 (witness): the derivation at February 15 2024. -/
theorem C5_witness :
    (2 : Nat) < 3 ∧
    timeWindow ⟨2024, 2, 15, 0, 0, 0⟩ =
      (janFirst ((2024 : Int) - 1), janFirst 2024) :=
  ⟨by decide,
   (C5_time_window ⟨2024, 2, 15, 0, 0, 0⟩ (by decide) (by decide)).1 (by decide)⟩

/-! ## Manifest, self-account identity and the cached report
(source lines 87–100, 111–126, 245–253 and 364–365)

`output_data` first runs `prepare_wxfile` (fatal `pause_for_exit` when
`Manifest.db` is missing or unreadable) and `prepare_myself_info`
(`wxmm.iat[0]` raises an uncaught `IndexError` when no
`mmsetting.archive.*` manifest entry matches), and only then checks for
the per-account cache file `{myid}.json`.  The statistics computation of
lines 255–362 is abstracted as the `compute` parameter, and the JSON
(de)serialization of the cache file is modelled as the identity on the
report value. -/

/-- A row of the backup's `Manifest.db` `Files` table. -/
structure ManifestEntry where
  relativePath : List Char
  fileID : List Char

/-- Character class `[0-9A-Za-z_\-]`. -/
def idChar (c : Char) : Bool := c.isAlphanum || c = '_' || c = '-'

/-- Strip an expected literal off the front of a string, or fail. -/
def dropLit : List Char → List Char → Option (List Char)
  | [], s => some s
  | _ :: _, [] => none
  | p :: ps, c :: cs => if c = p then dropLit ps cs else none

/-- The settings-file pattern of source line 113,
`^Documents/MMappedKV/mmsetting.archive.[0-9A-Za-z_\-]{6,20}$` (the two
unescaped regex dots match any character except newline). -/
def mmMatch (s : List Char) : Bool :=
  match dropLit (("Documents/MMappedKV/mmsetting").toList) s with
  | some (c1 :: rest1) =>
    if c1 = '\n' then false
    else
      match dropLit (("archive").toList) rest1 with
      | some (c2 :: tail) =>
        if c2 = '\n' then false
        else decide (6 ≤ tail.length) && decide (tail.length ≤ 20) && tail.all idChar
      | _ => false
  | _ => false

/-- Python `str.split(".")`. -/
def splitDot : List Char → List (List Char)
  | [] => [[]]
  | c :: rest =>
    match splitDot rest with
    | [] => [[c]]
    | w :: ws => if c = '.' then [] :: w :: ws else (c :: w) :: ws

/-- The self-account identity assembled by `prepare_myself_info`. -/
structure SelfInfo where
  myid : List Char
  myname : List Char
  myheadimg : List Char

/-- The environment a run reads: the manifest (`none` when `Manifest.db`
cannot be opened or queried), the name/avatar pair recovered from the
settings archive (`none` when that decode fails and the hard-coded
fallback identity is used), and the per-account cache files on disk. -/
structure Env (Report : Type) where
  manifestFiles : Option (List ManifestEntry)
  mmsettingName : Option (List Char × List Char)
  cache : List Char → Option Report

/-- `prepare_wxfile`: a missing/unreadable manifest logs an error and
calls `pause_for_exit()` (modelled as the fatal `sysExit`). -/
def prepare_wxfile {Report : Type} (env : Env Report) :
    Except PyErr (List ManifestEntry) :=
  match env.manifestFiles with
  | none => .error .sysExit
  | some fs => .ok fs

/-- `prepare_myself_info`: `wxmm.iat[0]` on the pattern-filtered paths
(uncaught `IndexError` when empty), `myid = mymmp.split(".")[-1]`, then
the name/avatar extraction with its `except` fallback identity. -/
def prepare_myself_info {Report : Type} (env : Env Report)
    (wxfile : List ManifestEntry) : Except PyErr SelfInfo :=
  match (wxfile.filter (fun e => mmMatch e.relativePath)).head? with
  | none => .error .indexError
  | some e =>
    match env.mmsettingName with
    | some ni => .ok ⟨(splitDot e.relativePath).getLastD [], ni.1, ni.2⟩
    | none => .ok ⟨(splitDot e.relativePath).getLastD [], ("微信用户").toList, []⟩

/-- Whether the returned report was loaded from the cache file or
recomputed. -/
inductive ReportSource (Report : Type) where
  | fromCache (r : Report)
  | computed (r : Report)

/-- The outcome of `output_data`: the report with its provenance, and the
state of the cache files after the run. -/
structure RunResult (Report : Type) where
  source : ReportSource Report
  cacheAfter : List Char → Option Report

/-- `output_data` (lines 245–253 and 364–366): prepare the manifest and
the self identity, then return the cached report for `myid` if its file
exists, else run the statistics computation and persist its report under
`myid`. -/
def output_data {Report : Type} (compute : SelfInfo → Except PyErr Report)
    (env : Env Report) : Except PyErr (RunResult Report) :=
  match prepare_wxfile env with
  | .error e => .error e
  | .ok wxfile =>
    match prepare_myself_info env wxfile with
    | .error e => .error e
    | .ok info =>
      match env.cache info.myid with
      | some r => .ok ⟨.fromCache r, env.cache⟩
      | none =>
        match compute info with
        | .error e => .error e
        | .ok rep =>
          .ok ⟨.computed rep,
               fun k => if k = info.myid then some rep else env.cache k⟩

/-- Claim C7: the report is persisted keyed by the self-account
identifier, and when a cache file for the current run's account exists,
`output_data` returns the persisted report directly (`fromCache`,
leaving the cache untouched) without invoking the statistics
computation; on a cache miss the computed report is stored under
`myid`. -/
theorem C7_cache_short_circuit {Report : Type}
    (compute : SelfInfo → Except PyErr Report) (env : Env Report)
    (wxfile : List ManifestEntry) (info : SelfInfo)
    (h1 : prepare_wxfile env = .ok wxfile)
    (h2 : prepare_myself_info env wxfile = .ok info) :
    (∀ r, env.cache info.myid = some r →
      output_data compute env = .ok ⟨.fromCache r, env.cache⟩) ∧
    (∀ rep, env.cache info.myid = none → compute info = .ok rep →
      output_data compute env = .ok ⟨.computed rep,
        fun k => if k = info.myid then some rep else env.cache k⟩) := by
  constructor
  · intro r h3
    simp [output_data, h1, h2, h3]
  · intro rep h3 h4
    simp [output_data, h1, h2, h3, h4]

/-- Claim C10: `output_data` loads the manifest and the self identity
before checking the cache, so — whatever the cache contains — a missing
or unopenable manifest aborts with the fatal exit, and an absent
self-account settings entry aborts with the uncaught `IndexError`. -/
theorem C10_prepare_before_cache {Report : Type}
    (compute : SelfInfo → Except PyErr Report) (env : Env Report) :
    (env.manifestFiles = none → output_data compute env = .error .sysExit) ∧
    (∀ fs, env.manifestFiles = some fs →
      (fs.filter (fun e => mmMatch e.relativePath)).head? = none →
      output_data compute env = .error .indexError) := by
  constructor
  · intro h
    simp [output_data, prepare_wxfile, h]
  · intro fs h1 h2
    simp [output_data, prepare_wxfile, prepare_myself_info, h1, h2]

/-- A manifest entry whose relative path names the settings archive of
account `wxid_abc123`. -/
def entryW : ManifestEntry :=
  ⟨("Documents/MMappedKV/mmsetting.archive.wxid_abc123").toList, ("ab12").toList⟩

/-- An environment holding that entry and a cached report `42` for
`wxid_abc123`. -/
def envW : Env Nat :=
  ⟨some [entryW], some (("nick").toList, []),
   fun k => if k = ("wxid_abc123").toList then some 42 else none⟩

/-- Claim C7 (witness): on `envW` the run short-circuits to the cached
report `42` without invoking the computation. -/
theorem C7_witness :
    output_data (fun _ => .error .sysExit) envW = .ok ⟨.fromCache 42, envW.cache⟩ :=
  (C7_cache_short_circuit (fun _ => .error .sysExit) envW [entryW]
    ⟨("wxid_abc123").toList, ("nick").toList, []⟩ rfl rfl).1 42 rfl

/-- An environment with an unreadable manifest but a fully-populated
cache. -/
def envNoManifest : Env Nat := ⟨none, none, fun _ => some 7⟩

/-- Claim C10 (witness): despite the cache holding a report for every
account, the unreadable manifest still aborts the run. -/
theorem C10_witness :
    output_data (fun _ => .ok 0) envNoManifest = .error .sysExit :=
  (C10_prepare_before_cache (fun _ => .ok 0) envNoManifest).1 rfl

/-! ## Message retrieval (`get_message_by_id`, source lines 200–213)

The left join of source lines 222–223 maps each contact's table name to
the shard database holding it; a contact whose table no shard registers
gets a missing (`NaN`) `message_db`.  `get_message_by_id` then runs

```
try:
    with sqlite3.connect(database) as conn:
        msg = pd.read_sql(sql, conn)
except:
    msg = pd.DataFrame()
```

`sqlite3.connect(nan)` raises (`TypeError`), and any failure opening or
querying the shard raises inside the `try`; the bare `except` turns
every such failure into an empty frame.  The connect-and-query of the
time-filtered SQL is abstracted as the `runQuery` parameter. -/

/-- A contact row after the join with the shard table registry. -/
structure ChatJoinRow where
  message_db : Option Nat
  table : List Char

/-- The left join `message_tables.set_index("name")` lookup: the shard
holding a contact's table, if any. -/
def joinMessageDb (mapping : List (List Char × Nat)) (tbl : List Char) : Option Nat :=
  (mapping.find? (fun p => p.1 == tbl)).map (fun p => p.2)

/-- `get_message_by_id`: query the contact's shard for its in-window
messages, degrading every raised exception to an empty result. -/
def get_message_by_id {Msg : Type}
    (runQuery : Nat → List Char → Except PyErr (List Msg))
    (row : ChatJoinRow) : List Msg :=
  match (match row.message_db with
         | none => Except.error PyErr.typeError
         | some db => runQuery db row.table) with
  | .ok msgs => msgs
  | .error _ => []

/-- Claim C8: message retrieval returns an empty list rather than
failing, both when the contact's table is absent from the shard mapping
(the joined `message_db` is missing) and when the shard query raises;
when the query succeeds its rows are returned.  The function's return
type is a plain list: no exception can propagate, so the run
continues. -/
theorem C8_empty_on_failure {Msg : Type}
    (runQuery : Nat → List Char → Except PyErr (List Msg))
    (mapping : List (List Char × Nat)) (tbl : List Char) :
    (mapping.find? (fun p => p.1 == tbl) = none →
      get_message_by_id runQuery ⟨joinMessageDb mapping tbl, tbl⟩ = ([] : List Msg)) ∧
    (∀ db e, joinMessageDb mapping tbl = some db → runQuery db tbl = .error e →
      get_message_by_id runQuery ⟨joinMessageDb mapping tbl, tbl⟩ = []) ∧
    (∀ db msgs, joinMessageDb mapping tbl = some db → runQuery db tbl = .ok msgs →
      get_message_by_id runQuery ⟨joinMessageDb mapping tbl, tbl⟩ = msgs) := by
  refine ⟨?_, ?_, ?_⟩
  · intro h
    simp [get_message_by_id, joinMessageDb, h]
  · intro db e h1 h2
    simp [get_message_by_id, h1, h2]
  · intro db msgs h1 h2
    simp [get_message_by_id, h1, h2]

/-- Claim C8 (witness): an empty shard mapping (table never registered)
and a failing shard query both yield the empty message list. -/
theorem C8_witness :
    get_message_by_id (fun _ _ => Except.error PyErr.indexError)
      ⟨joinMessageDb [] (("Chat_ab").toList), ("Chat_ab").toList⟩ = ([] : List Nat) ∧
    get_message_by_id (fun _ _ => Except.error PyErr.indexError)
      ⟨joinMessageDb [(("Chat_ab").toList, 0)] (("Chat_ab").toList),
       ("Chat_ab").toList⟩ = ([] : List Nat) :=
  ⟨(C8_empty_on_failure (fun _ _ => Except.error PyErr.indexError)
      [] (("Chat_ab").toList)).1 rfl,
   ((C8_empty_on_failure (fun _ _ => Except.error PyErr.indexError)
      [(("Chat_ab").toList, 0)] (("Chat_ab").toList)).2.1) 0 PyErr.indexError
      (by rfl) rfl⟩

/-! ## Message clips (source lines 300–303 and 361)

```
msg_strip = msg_friend["Message"].str.replace("(\[.{2,4}\])|\s+", "", regex=True)
msg_len = msg_strip.str.len()
msg_clip = msg_strip[(msg_friend["Type"]==1)&(msg_len>8)&(msg_len<18)&(msg_friend["Des"]>0)]
...
"message_clip": msg_clip.sample(4).to_list()
```

The substitution scans left to right; at each position the first
alternative `\[.{2,4}\]` (a bracket, 2–4 non-newline characters tried
greedily from 4 down, a closing bracket) is tried before `\s+`.  Removing
a maximal whitespace run is the same as removing each whitespace
character singly, so the scanner treats whitespace per character.
`sample(4)` draws 4 rows without replacement; the randomness is modelled
by the list of chosen (distinct, in-range) indices. -/

/-- Python `\s` on the characters appearing here (ASCII whitespace). -/
def isPySpace (c : Char) : Bool :=
  c == ' ' || c == '\t' || c == '\n' || c == '\r' || c == '\x0b' || c == '\x0c'

/-- Try to match `.{k}\]` against the characters after an opening
bracket, returning the remainder after the closing bracket. -/
def tryBracket (k : Nat) (rest : List Char) : Option (List Char) :=
  match rest.drop k with
  | ']' :: after => if (rest.take k).all (fun c => c != '\n') then some after else none
  | _ => none

/-- Greedy `\[.{2,4}\]` after the opening bracket: 4, then 3, then 2
inner characters. -/
def bracketSplit (rest : List Char) : Option (List Char) :=
  match tryBracket 4 rest with
  | some a => some a
  | none =>
    match tryBracket 3 rest with
    | some a => some a
    | none => tryBracket 2 rest

/-- A successful bracket match never lengthens the remainder. -/
theorem tryBracket_length (k : Nat) (rest after : List Char)
    (h : tryBracket k rest = some after) : after.length ≤ rest.length := by
  unfold tryBracket at h
  split at h
  · next after' heq =>
    split at h
    · cases h
      have hlen := congrArg List.length heq
      simp [List.length_drop] at hlen
      omega
    · cases h
  · cases h

/-- A successful `bracketSplit` never lengthens the remainder. -/
theorem bracketSplit_length (rest after : List Char)
    (h : bracketSplit rest = some after) : after.length ≤ rest.length := by
  unfold bracketSplit at h
  split at h
  · next a h4 =>
    cases h
    exact tryBracket_length 4 rest after h4
  · next h4 =>
    split at h
    · next a h3 =>
      cases h
      exact tryBracket_length 3 rest after h3
    · exact tryBracket_length 2 rest after h

/-- The `str.replace("(\[.{2,4}\])|\s+", "", regex=True)` scanner. -/
def stripGo : List Char → List Char
  | [] => []
  | c :: rest =>
    if c = '[' then
      match h : bracketSplit rest with
      | some after => stripGo after
      | none => c :: stripGo rest
    else if isPySpace c then stripGo rest
    else c :: stripGo rest
termination_by l => l.length
decreasing_by
  · have := bracketSplit_length rest after h
    simp only [List.length_cons]
    omega
  · simp only [List.length_cons]
    omega
  · simp only [List.length_cons]
    omega
  · simp only [List.length_cons]
    omega

/-- A string with no opening bracket and no whitespace is untouched by
the stripper. -/
theorem stripGo_plain : ∀ s : List Char,
    (∀ c ∈ s, ¬ c = '[' ∧ isPySpace c = false) → stripGo s = s := by
  intro s
  induction s with
  | nil => intro _; simp [stripGo]
  | cons c rest ih =>
    intro h
    obtain ⟨hc, hsp⟩ := h c (by simp)
    rw [stripGo]
    rw [if_neg hc, if_neg (by simp [hsp])]
    rw [ih (fun x hx => h x (by simp [hx]))]

/-- A friend-chat message row: the source columns `Type`, `Des`
(`0` = sent by self, positive = received) and `Message`. -/
structure FriendMsg where
  mtype : Nat
  des : Nat
  message : List Char

/-- `msg_clip`: the stripped messages of plain-text (`Type == 1`)
friend-chat rows sent by the other party (`Des > 0`) whose stripped
length is over 8 and under 18. -/
def msg_clip (msgs : List FriendMsg) : List (List Char) :=
  msgs.filterMap (fun m =>
    if m.mtype = 1 ∧ 8 < (stripGo m.message).length ∧
       (stripGo m.message).length < 18 ∧ 0 < m.des
    then some (stripGo m.message) else none)

/-- `DataFrame.sample(4)` without replacement: the randomness is the
chosen list of 4 distinct in-range row indices; fewer than 4 rows make
the draw impossible (pandas raises). -/
def pySample {α : Type} (l : List α) (sel : List Nat) : Option (List α) :=
  if sel.length = 4 ∧ sel.Nodup ∧ ∀ i ∈ sel, i < l.length then
    some (sel.filterMap (fun i => l[i]?))
  else none

/-- Indexing a list by in-range indices keeps every index. -/
theorem filterMap_getElem_length {α : Type} (l : List α) :
    ∀ sel : List Nat, (∀ i ∈ sel, i < l.length) →
    (sel.filterMap (fun i => l[i]?)).length = sel.length := by
  intro sel
  induction sel with
  | nil => intro _; rfl
  | cons i rest ih =>
    intro h
    have hi : i < l.length := h i (by simp)
    rw [List.filterMap_cons, List.getElem?_eq_getElem hi]
    simp [ih (fun j hj => h j (by simp [hj]))]

/-- A 17-character plain-text message (no brackets, no whitespace). -/
def clip17 : List Char := ("abcdefghijklmnopq").toList

/-- Three 9-character plain-text messages. -/
def clip9a : List Char := ("abcdefghi").toList

/-- See `clip9a`. -/
def clip9b : List Char := ("bcdefghij").toList

/-- See `clip9a`. -/
def clip9c : List Char := ("cdefghijk").toList

/-- See `clip9a`. -/
def clip9d : List Char := ("defghijkl").toList

/-- Four received plain-text friend messages, one of stripped length 17
and three of stripped length 9. -/
def msgsCex : List FriendMsg :=
  [⟨1, 1, clip17⟩, ⟨1, 1, clip9a⟩, ⟨1, 1, clip9b⟩, ⟨1, 1, clip9c⟩]

/-- Claim C9 (counterexample): a stripped message of length 17 passes the
code's filter (`msg_len > 8` and `msg_len < 18`) and is drawn into the
sample — but 17 is not strictly between 8 and 17, so the claimed length
bound is wrong. -/
theorem C9_counterexample :
    pySample (msg_clip msgsCex) [0, 1, 2, 3] =
      some [clip17, clip9a, clip9b, clip9c] ∧
    clip17.length = 17 := by
  have h17 : stripGo clip17 = clip17 := stripGo_plain clip17 (by decide)
  have h9a : stripGo clip9a = clip9a := stripGo_plain clip9a (by decide)
  have h9b : stripGo clip9b = clip9b := stripGo_plain clip9b (by decide)
  have h9c : stripGo clip9c = clip9c := stripGo_plain clip9c (by decide)
  have hc17 : clip17.length = 17 := by decide
  have hc9a : clip9a.length = 9 := by decide
  have hc9b : clip9b.length = 9 := by decide
  have hc9c : clip9c.length = 9 := by decide
  have hclip : msg_clip msgsCex = [clip17, clip9a, clip9b, clip9c] := by
    simp [msg_clip, msgsCex, List.filterMap_cons, h17, h9a, h9b, h9c,
      hc17, hc9a, hc9b, hc9c]
  rw [hclip]
  constructor
  · simp [pySample, List.filterMap_cons]
  · decide

/-- Claim C9 (amended): every string in a drawn `message_clip` sample
comes from a friend-chat message that is plain text (`Type = 1`), was
sent by the other party (`Des > 0`), and whose stripped length is
strictly between 8 and 18 (that is, 9 to 17 characters — length 17 is
allowed, see the counterexample); the draw picks exactly 4 strings,
without replacement, at the sampler's choice of distinct indices. -/
theorem C9_message_clip (msgs : List FriendMsg) (sel : List Nat)
    (out : List (List Char)) (h : pySample (msg_clip msgs) sel = some out) :
    out.length = 4 ∧
    ∀ s ∈ out, ∃ m ∈ msgs, m.mtype = 1 ∧ 0 < m.des ∧ stripGo m.message = s ∧
      8 < s.length ∧ s.length < 18 := by
  unfold pySample at h
  split at h
  case isTrue hc =>
    obtain ⟨hlen4, hnd, hbound⟩ := hc
    cases h
    constructor
    · rw [filterMap_getElem_length (msg_clip msgs) sel hbound]
      exact hlen4
    · intro s hs
      obtain ⟨i, hi, hgi⟩ := List.mem_filterMap.1 hs
      have hsmem : s ∈ msg_clip msgs := by
        have hilt : i < (msg_clip msgs).length := hbound i hi
        rw [List.getElem?_eq_getElem hilt] at hgi
        cases hgi
        exact List.getElem_mem hilt
      obtain ⟨m, hm, hms⟩ := List.mem_filterMap.1 hsmem
      by_cases hp : m.mtype = 1 ∧ 8 < (stripGo m.message).length ∧
          (stripGo m.message).length < 18 ∧ 0 < m.des
      · rw [if_pos hp] at hms
        cases hms
        exact ⟨m, hm, hp.1, hp.2.2.2, rfl, hp.2.1, hp.2.2.1⟩
      · rw [if_neg hp] at hms
        cases hms
  case isFalse => cases h

/-- Claim C9 (witness): the amended statement at a concrete draw of four
9-character messages. -/
theorem C9_witness :
    pySample (msg_clip [⟨1, 1, clip9a⟩, ⟨1, 1, clip9b⟩, ⟨1, 1, clip9c⟩,
        ⟨1, 2, clip9d⟩]) [3, 0, 1, 2] =
      some [clip9d, clip9a, clip9b, clip9c] ∧
    ([clip9d, clip9a, clip9b, clip9c] : List (List Char)).length = 4 := by
  have h9a : stripGo clip9a = clip9a := stripGo_plain clip9a (by decide)
  have h9b : stripGo clip9b = clip9b := stripGo_plain clip9b (by decide)
  have h9c : stripGo clip9c = clip9c := stripGo_plain clip9c (by decide)
  have h9d : stripGo clip9d = clip9d := stripGo_plain clip9d (by decide)
  have hc9a : clip9a.length = 9 := by decide
  have hc9b : clip9b.length = 9 := by decide
  have hc9c : clip9c.length = 9 := by decide
  have hc9d : clip9d.length = 9 := by decide
  have hclip : msg_clip [⟨1, 1, clip9a⟩, ⟨1, 1, clip9b⟩, ⟨1, 1, clip9c⟩,
      ⟨1, 2, clip9d⟩] = [clip9a, clip9b, clip9c, clip9d] := by
    simp [msg_clip, List.filterMap_cons, h9a, h9b, h9c, h9d,
      hc9a, hc9b, hc9c, hc9d]
  have hsample : pySample (msg_clip [⟨1, 1, clip9a⟩, ⟨1, 1, clip9b⟩,
      ⟨1, 1, clip9c⟩, ⟨1, 2, clip9d⟩]) [3, 0, 1, 2] =
      some [clip9d, clip9a, clip9b, clip9c] := by
    rw [hclip]
    simp [pySample, List.filterMap_cons]
  refine ⟨hsample, ?_⟩
  exact (C9_message_clip _ [3, 0, 1, 2] _ hsample).1

end WxAnnual
